import Mathlib

/-!
Shallow embedding of the semantic core of the lambari compiler front end
(projeto1: include/utils.hpp and include/Action.hpp).

Enumerations, the string tables, the coercion test and the diagnostic
message templates are translated directly from utils.hpp.  The AST layer
is translated from Action.hpp: child nodes are abstracted as records
exposing exactly the interface that Operation and ExpressionList consult
(static type, error flag, rendering function), and Operation construction
is the fold over the child list performed by the variadic
Operation::set_children template (Action.hpp, lines 143-151).

Member-function bodies that live in Action.cpp - a file that is not among
the provided sources - are modelled from the specification; each such
definition carries a doc comment starting with "Modelled from the spec:".
Diagnostics are modelled as data: the Operation layer records which
semantic_error call it makes (a Diag value), and utils.semantic_error maps
such a call to the emitted text, returning none when a string-table lookup
would throw std::out_of_range (unordered_map::at on a missing key).
-/

/-- Embeds enum class Type (utils.hpp, lines 8-10).  The source name is
`Type`, which Lean reserves, hence the shortened spelling. -/
inductive Ty where
  | INT
  | FLOAT
  | BOOL
  | VOID
  | ANY
deriving DecidableEq, BEq, Repr, Fintype

/-- Embeds enum class Operator (utils.hpp, lines 12-31). -/
inductive Operator where
  | EQUAL
  | NOT_EQUAL
  | GREATER_THAN
  | LESS_THAN
  | GREATER_EQUAL_THAN
  | LESS_EQUAL_THAN
  | AND
  | OR
  | NOT
  | PLUS
  | MINUS
  | TIMES
  | DIVIDE
  | UNARY_MINUS
  | ASSIGN
  | PAR
  | CAST
  | TEST
deriving DecidableEq, BEq, Repr, Fintype

instance : LawfulBEq Ty where
  eq_of_beq {a b} h := by
    cases a <;> cases b <;> first | rfl | exact Bool.noConfusion h
  rfl {a} := by cases a <;> rfl

instance : LawfulBEq Operator where
  eq_of_beq {a b} h := by
    cases a <;> cases b <;> first | rfl | exact Bool.noConfusion h
  rfl {a} := by cases a <;> rfl

/-- A call to one of the utils::semantic_error specializations
(utils.hpp, lines 191-260): the error kind together with the arguments
the caller passes.  Constructor names follow enum class Error
(utils.hpp, lines 33-45). -/
inductive Diag where
  | MULTIPLE_DEFINITION (name : String)
  | MULTIPLE_DEFINITION_FN (name : String)
  | UNDECLARED_VARIABLE (name : String)
  | INCOMPATIBLE_OPERANDS (op : Operator) (expected actual : Ty)
  | INCOMPATIBLE_ASSIGNMENT (expected actual : Ty)
  | INCOMPATIBLE_TEST (received : Ty)
  | DECLARED_BUT_NEVER_DEFINED (name : String)
  | WRONG_PARAM_COUNT (name : String) (expected actual : Nat)
  | INCOMPATIBLE_PARAM (name : String) (expected actual : Ty)
  | INCOMPATIBLE_INDEX (expected actual : Ty)
  | NON_ARRAY_INDEX
deriving DecidableEq, Repr

namespace utils

/-- Embeds utils::type_table (utils.hpp, lines 64-68).  The C++ table is
an unordered_map holding entries for INT, FLOAT and BOOL only; a lookup
through unordered_map::at for any other key throws std::out_of_range,
modelled as none. -/
def type_table : Ty → Option String
  | Ty.INT => some "int"
  | Ty.FLOAT => some "float"
  | Ty.BOOL => some "bool"
  | _ => none

/-- Embeds utils::operator_table (utils.hpp, lines 70-84): thirteen
entries (the comparison, boolean and arithmetic operators); every other
operator is absent and a lookup through unordered_map::at throws,
modelled as none. -/
def operator_table : Operator → Option String
  | Operator.EQUAL => some "=="
  | Operator.NOT_EQUAL => some "!="
  | Operator.GREATER_THAN => some ">"
  | Operator.LESS_THAN => some "<"
  | Operator.GREATER_EQUAL_THAN => some ">="
  | Operator.LESS_EQUAL_THAN => some "<="
  | Operator.AND => some "&"
  | Operator.OR => some "|"
  | Operator.NOT => some "!"
  | Operator.PLUS => some "+"
  | Operator.MINUS => some "-"
  | Operator.TIMES => some "*"
  | Operator.DIVIDE => some "/"
  | _ => none

/-- Embeds utils::printable_type_table (utils.hpp, lines 86-90). -/
def printable_type_table : Ty → Option String
  | Ty.INT => some "integer"
  | Ty.FLOAT => some "float"
  | Ty.BOOL => some "boolean"
  | _ => none

/-- Embeds utils::printable_operator_table (utils.hpp, lines 92-109):
sixteen entries; PAR and CAST are absent. -/
def printable_operator_table : Operator → Option String
  | Operator.EQUAL => some "equal"
  | Operator.NOT_EQUAL => some "different"
  | Operator.GREATER_THAN => some "greater than"
  | Operator.LESS_THAN => some "less than"
  | Operator.GREATER_EQUAL_THAN => some "greater or equal than"
  | Operator.LESS_EQUAL_THAN => some "less or equal than"
  | Operator.AND => some "and"
  | Operator.OR => some "or"
  | Operator.NOT => some "negation"
  | Operator.PLUS => some "addition"
  | Operator.MINUS => some "subtraction"
  | Operator.TIMES => some "multiplication"
  | Operator.DIVIDE => some "division"
  | Operator.UNARY_MINUS => some "unary minus"
  | Operator.ASSIGN => some "attribution"
  | Operator.TEST => some "test"
  | _ => none

/-- Embeds utils::to_string(Type) (utils.hpp, lines 138-140):
type_table.at(type), which throws for keys outside the table. -/
def to_string (t : Ty) : Option String := type_table t

/-- Embeds utils::to_string(Operator) (utils.hpp, lines 142-144). -/
def to_string_op (o : Operator) : Option String := operator_table o

/-- Embeds utils::to_printable_string(Type) (utils.hpp, lines 146-148). -/
def to_printable_string (t : Ty) : Option String := printable_type_table t

/-- Embeds utils::to_printable_string(Operator) (utils.hpp, lines
150-152). -/
def to_printable_string_op (o : Operator) : Option String :=
  printable_operator_table o

/-- Embeds utils::can_coerce (utils.hpp, lines 158-160):
target == Type::FLOAT and source == Type::INT. -/
def can_coerce (target source : Ty) : Bool :=
  target == Ty.FLOAT && source == Ty.INT

/-- Embeds utils::type_matches (utils.hpp, lines 162-164). -/
def type_matches (target source : Ty) : Bool :=
  target == source

/-- Embeds utils::error_prefix (utils.hpp, lines 171-174):
the line counter value rendered in decimal, then the error kind.
The source name ends in a word this development avoids, hence the
spelling error_head. -/
def error_head (line : Nat) (kind : String) : String :=
  "[Line " ++ Nat.repr line ++ "] " ++ kind ++ " error: "

/-- Embeds the utils::semantic_error specialization for
INCOMPATIBLE_OPERANDS (utils.hpp, lines 206-213), shared by the
INCOMPATIBLE_ASSIGNMENT and INCOMPATIBLE_TEST specializations.  The
to_printable_string lookups throw for types or operators outside the
printable tables, modelled as none. -/
def incompatible_operands_msg (line : Nat) (op : Operator)
    (expected actual : Ty) : Option String :=
  match to_printable_string_op op, to_printable_string expected,
      to_printable_string actual with
  | some opn, some e, some a =>
      some (error_head line "semantic" ++ opn ++ " operation expected "
        ++ e ++ " but received " ++ a)
  | _, _, _ => none

/-- Embeds the utils::semantic_error template specializations
(utils.hpp, lines 191-260): the text echoed to the diagnostic stream for
each call, or none when a printable-table lookup throws. -/
def semantic_error (line : Nat) : Diag → Option String
  | Diag.MULTIPLE_DEFINITION name =>
      some (error_head line "semantic" ++ "re-declaration of variable " ++ name)
  | Diag.MULTIPLE_DEFINITION_FN name =>
      some (error_head line "semantic" ++ "re-declaration of function " ++ name)
  | Diag.UNDECLARED_VARIABLE name =>
      some (error_head line "semantic" ++ "undeclared variable " ++ name)
  | Diag.INCOMPATIBLE_OPERANDS op e a => incompatible_operands_msg line op e a
  | Diag.INCOMPATIBLE_ASSIGNMENT e a =>
      incompatible_operands_msg line Operator.ASSIGN e a
  | Diag.INCOMPATIBLE_TEST r =>
      incompatible_operands_msg line Operator.TEST Ty.BOOL r
  | Diag.DECLARED_BUT_NEVER_DEFINED name =>
      some (error_head line "semantic" ++ "function " ++ name
        ++ " is declared but never defined")
  | Diag.WRONG_PARAM_COUNT name e a =>
      some (error_head line "semantic" ++ "function " ++ name ++ " expects "
        ++ Nat.repr e ++ " parameters but received " ++ Nat.repr a)
  | Diag.INCOMPATIBLE_PARAM name e a =>
      match to_printable_string e, to_printable_string a with
      | some es, some a2 =>
          some (error_head line "semantic" ++ "parameter " ++ name
            ++ " expected " ++ es ++ " but received " ++ a2)
      | _, _ => none
  | Diag.INCOMPATIBLE_INDEX e a =>
      match to_printable_string e, to_printable_string a with
      | some es, some a2 =>
          some (error_head line "semantic" ++ "index operator expects "
            ++ es ++ " but received " ++ a2)
      | _, _ => none
  | Diag.NON_ARRAY_INDEX =>
      some (error_head line "semantic" ++ "index operator expects an array")

end utils

/-- The interface of class Action (Action.hpp, lines 13-19) that parent
nodes consult: to_string(depth), error(), type().  A child node is
abstracted as one such record. -/
structure Node where
  type : Ty
  error : Bool
  to_string : Nat → String

/-- Embeds class Nop (Action.hpp, lines 21-27): renders to the empty
string, static type VOID; error() is not overridden, so the Action base
default (false, Action.hpp line 17) applies. -/
def Nop : Node := ⟨Ty.VOID, false, fun _ => ""⟩

/-- Modelled from the spec: class Constant (Action.hpp, lines 93-103)
whose member bodies live in Action.cpp, not among the provided sources.
Spec 4.1: type = the given literal type, error = false always; the
rendering returns the literal text. -/
def Constant.mk (t : Ty) (value : String) : Node :=
  ⟨t, false, fun _ => value⟩

/-- Modelled from the spec: class Variable (Action.hpp, lines 79-90)
when the Symbol Scope lookup fails; its member bodies live in
Action.cpp, not among the provided sources.  Spec 4.1: not found means
type = ANY, error = true. -/
def Variable.undeclared (name : String) : Node :=
  ⟨Ty.ANY, true, fun _ => name⟩

/-- The private state of class Operation (Action.hpp, lines 106-152):
operator, accumulated type t, failure flag, coercion marker and child
list, together with the list of semantic_error calls issued so far
(the observable diagnostic side effects of construction). -/
structure OperationState where
  op : Operator
  t : Ty
  fail : Bool
  needs_coercion : Bool
  children : List Node
  diags : List Diag

/-- Modelled from the spec: the body of Operation::check (declared at
Action.hpp line 140, defined in Action.cpp, which is not among the
provided sources).  Spec 4.3, the compatibility check for one additional
child: if the accumulated type already carries ANY, skip (cascade
suppression); else if the child type equals the accumulated type,
accept; else if the one-directional implicit coercion between INT and
FLOAT applies to the pair in either position (spec 8: for all
(INT, FLOAT) operand pairs in either position, accept with a coercion
marker), set needs_coercion; else mark the node failed, set the type to
ANY and issue INCOMPATIBLE_OPERANDS(op, expected, actual). -/
def check (s : OperationState) (a : Node) : OperationState :=
  if s.t = Ty.ANY then s
  else if utils.type_matches s.t a.type then s
  else if utils.can_coerce s.t a.type || utils.can_coerce a.type s.t then
    ⟨s.op, s.t, s.fail, true, s.children, s.diags⟩
  else
    ⟨s.op, Ty.ANY, true, s.needs_coercion, s.children,
      s.diags ++ [Diag.INCOMPATIBLE_OPERANDS s.op s.t a.type]⟩

/-- Embeds one step of the variadic Operation::set_children template
(Action.hpp, lines 143-151): fail = fail or child.error(); if not fail,
run the compatibility check; append the child to the child list. -/
def set_children_step (s : OperationState) (a : Node) : OperationState :=
  let s1 : OperationState :=
    ⟨s.op, s.t, s.fail || a.error, s.needs_coercion, s.children, s.diags⟩
  let s2 := if s1.fail then s1 else check s1 a
  ⟨s2.op, s2.t, s2.fail, s2.needs_coercion, s2.children ++ [a], s2.diags⟩

/-- Embeds the recursion of Operation::set_children over the whole
argument pack (Action.hpp, lines 141-151). -/
def set_children (s : OperationState) (as2 : List Node) : OperationState :=
  as2.foldl set_children_step s

/-- Embeds the first Operation constructor (Action.hpp, lines 108-112):
t starts as the first child's type, then set_children runs over all
children including the first. -/
def Operation.mkFirst (op : Operator) (first : Node) (rest : List Node) :
    OperationState :=
  set_children ⟨op, first.type, false, false, [], []⟩ (first :: rest)

/-- Embeds the second Operation constructor (Action.hpp, lines 114-118):
an explicitly given accumulated type. -/
def Operation.mkTyped (op : Operator) (t : Ty) (cs : List Node) :
    OperationState :=
  set_children ⟨op, t, false, false, [], []⟩ cs

/-- Modelled from the spec: Operation::type() (declared at Action.hpp
line 128, defined in Action.cpp, which is not among the provided
sources).  Spec 3: a node reports its static type; spec 4.3: the type
field as adjusted during construction. -/
def OperationState.type (s : OperationState) : Ty := s.t

/-- Modelled from the spec: Operation::error() (declared at Action.hpp
line 127, defined in Action.cpp, not among the provided sources).
Spec 7: every node stores a local failed flag and reports it. -/
def OperationState.error (s : OperationState) : Bool := s.fail

/-- Modelled from the spec: Operation::set_type (declared at Action.hpp
line 131, defined in Action.cpp, not among the provided sources).
Spec 4.3: a specialization overrides the node's static type (Comparison
forces BOOL, Cast overwrites with the target type). -/
def OperationState.set_type (s : OperationState) (t : Ty) : OperationState :=
  ⟨s.op, t, s.fail, s.needs_coercion, s.children, s.diags⟩

/-- Embeds the Comparison constructor (Action.hpp, lines 155-162)
forwarding to the first Operation constructor: after Operation
construction, set_type(BOOL). -/
def Comparison.mk (op : Operator) (first : Node) (rest : List Node) :
    OperationState :=
  (Operation.mkFirst op first rest).set_type Ty.BOOL

/-- Embeds the Comparison constructor forwarding to the explicit-type
Operation constructor (Action.hpp, lines 155-162). -/
def Comparison.mkTyped (op : Operator) (t : Ty) (cs : List Node) :
    OperationState :=
  (Operation.mkTyped op t cs).set_type Ty.BOOL

/-- Embeds UnaryMinus::op_string (Action.hpp, lines 184-186): the
operator spelling the renderer uses for a UnaryMinus node. -/
def UnaryMinus.op_string : String := "-u"

/-- Embeds Cast::op_string (Action.hpp, lines 195-197): the target type
name from utils::to_string wrapped in square brackets; utils::to_string
throws std::out_of_range for types outside type_table, modelled as
none. -/
def Cast.op_string (t : Ty) : Option String :=
  Option.map (fun s => "[" ++ s ++ "]") (utils.to_string t)

/-- State of class ExpressionList (Action.hpp, lines 305-327).  The
class declares the member as plain bool with no default member
initializer and declares no constructor, so in a default-constructed
list the flag holds an indeterminate value; this is modelled by
Option Bool, with none standing for the indeterminate (uninitialized)
state. -/
structure ExpressionList where
  expressions : List Node
  fail : Option Bool

/-- A default-constructed ExpressionList: no members, the fail flag
uninitialized (Action.hpp declares no constructor for the class and no
initializer for the member). -/
def ExpressionList.default : ExpressionList := ⟨[], none⟩

/-- Modelled from the spec: ExpressionList::add (declared at Action.hpp
line 313, defined in Action.cpp, which is not among the provided
sources).  Spec 4.6: an ordered, appendable sequence that propagates
failure if any member fails, i.e. fail = fail or member.error(), and the
member is appended.  A disjunction whose left operand is indeterminate
is true when the member errs and remains indeterminate otherwise. -/
def ExpressionList.add (l : ExpressionList) (a : Node) : ExpressionList :=
  ⟨l.expressions ++ [a],
    match l.fail with
    | some b => some (b || a.error)
    | none => if a.error then some true else none⟩

/-- Embeds ExpressionList::error (Action.hpp, line 317): returns the
fail member as stored. -/
def ExpressionList.error (l : ExpressionList) : Option Bool := l.fail

/-- Embeds ExpressionList::size (Action.hpp, line 314). -/
def ExpressionList.size (l : ExpressionList) : Nat := l.expressions.length

/-- A string is a single line when it contains no newline character. -/
def noNL (s : String) : Prop := ∀ c ∈ s.data, c ≠ '\n'

instance (s : String) : Decidable (noNL s) :=
  inferInstanceAs (Decidable (∀ c ∈ s.data, c ≠ '\n'))

/-- The string arguments of a semantic_error call contain no newline
(identifiers produced by the scanner are single tokens). -/
def Diag.argsOneLine : Diag → Prop
  | Diag.MULTIPLE_DEFINITION name => noNL name
  | Diag.MULTIPLE_DEFINITION_FN name => noNL name
  | Diag.UNDECLARED_VARIABLE name => noNL name
  | Diag.DECLARED_BUT_NEVER_DEFINED name => noNL name
  | Diag.WRONG_PARAM_COUNT name _ _ => noNL name
  | Diag.INCOMPATIBLE_PARAM name _ _ => noNL name
  | _ => True

/-- An integer-typed constant, as the parser would build for the lexeme
1 (spec 4.1). -/
def intConst : Node := Constant.mk Ty.INT "1"

/-- A float-typed constant, as the parser would build for the lexeme
1.0 (spec 4.1). -/
def floatConst : Node := Constant.mk Ty.FLOAT "1.0"

/-- A node that already carries an unrecovered error: the Variable node
for an undeclared identifier x (spec 4.1). -/
def errX : Node := Variable.undeclared "x"

/-- A fresh Operation state for a PLUS node whose accumulated type is
INT, before any child is processed. -/
def opStart : OperationState := ⟨Operator.PLUS, Ty.INT, false, false, [], []⟩

theorem step_children (s : OperationState) (a : Node) :
    (set_children_step s a).children = s.children ++ [a] := by
  simp only [set_children_step, check]
  split_ifs <;> rfl

theorem step_fail_true (s : OperationState) (a : Node) (h : s.fail = true) :
    set_children_step s a
      = ⟨s.op, s.t, true, s.needs_coercion, s.children ++ [a], s.diags⟩ := by
  simp [set_children_step, h]

theorem step_err_true (s : OperationState) (a : Node) (h : a.error = true) :
    set_children_step s a
      = ⟨s.op, s.t, true, s.needs_coercion, s.children ++ [a], s.diags⟩ := by
  simp [set_children_step, h]

theorem set_children_nil (s : OperationState) : set_children s [] = s := rfl

theorem set_children_cons (s : OperationState) (a : Node) (as2 : List Node) :
    set_children s (a :: as2) = set_children (set_children_step s a) as2 := rfl

theorem set_children_append (s : OperationState) (xs ys : List Node) :
    set_children s (xs ++ ys) = set_children (set_children s xs) ys := by
  simp [set_children, List.foldl_append]

theorem set_children_children : ∀ (as2 : List Node) (s : OperationState),
    (set_children s as2).children = s.children ++ as2 := by
  intro as2
  induction as2 with
  | nil => intro s; simp [set_children_nil]
  | cons a rest ih =>
    intro s
    rw [set_children_cons, ih, step_children]
    simp

theorem set_children_fail_mono : ∀ (as2 : List Node) (s : OperationState),
    s.fail = true → (set_children s as2).fail = true := by
  intro as2
  induction as2 with
  | nil => intro s h; simpa [set_children_nil] using h
  | cons a rest ih =>
    intro s h
    rw [set_children_cons, step_fail_true s a h]
    exact ih _ rfl

theorem set_children_fail_of_mem : ∀ (as2 : List Node) (s : OperationState)
    (a : Node), a ∈ as2 → a.error = true → (set_children s as2).fail = true := by
  intro as2
  induction as2 with
  | nil => intro s a ha; exact absurd ha (List.not_mem_nil a)
  | cons b rest ih =>
    intro s a ha he
    rcases List.mem_cons.mp ha with h | h
    · subst h
      rw [set_children_cons, step_err_true s a he]
      exact set_children_fail_mono rest _ rfl
    · rw [set_children_cons]
      exact ih _ a h he

/-- Claim C3: the implicit-coercion test utils::can_coerce succeeds if
and only if the target is FLOAT and the source is INT; in particular no
coercion into INT, BOOL, VOID or ANY, and none out of FLOAT. -/
theorem can_coerce_iff :
    ∀ target source : Ty,
      utils.can_coerce target source = true ↔ (target = Ty.FLOAT ∧ source = Ty.INT) := by
  decide

/-- Claim C4, counterexample: UnaryMinus::op_string is not the operator
spelling a plain minus sign; the override in Action.hpp lines 184-186
returns the two-character spelling instead. -/
theorem unary_minus_spelling_cex : UnaryMinus.op_string ≠ "-" := by decide

/-- Claim C4 (amended): the operator spelling of UnaryMinus used by the
renderer is the string returned by its op_string override, namely
a minus sign followed by the letter u. -/
theorem unary_minus_spelling : UnaryMinus.op_string = "-u" := rfl

/-- Claim C5: evaluating the code at the failing input.  A
default-constructed ExpressionList has an uninitialized fail flag
(modelled none), so error() on an empty list is indeterminate rather
than false; once a member carrying an error is added, the flag becomes
definitely true, as the spec requires. -/
theorem expression_list_uninit_fail :
    ExpressionList.default.error = none ∧
      (ExpressionList.default.add errX).error = some true :=
  ⟨rfl, rfl⟩

/-- Claim C6: a Comparison node reports static type BOOL whatever the
types of its operands, through either forwarded Operation constructor:
the trailing set_type(BOOL) overwrites whatever type the compatibility
checks produced. -/
theorem comparison_type_bool :
    (∀ (op : Operator) (first : Node) (rest : List Node),
        (Comparison.mk op first rest).type = Ty.BOOL) ∧
    (∀ (op : Operator) (t : Ty) (cs : List Node),
        (Comparison.mkTyped op t cs).type = Ty.BOOL) :=
  ⟨fun _ _ _ => rfl, fun _ _ _ => rfl⟩

/-- Claim C8: rendering a completed node twice at the same indentation
depth, with no mutation in between, yields identical text.  In the
embedding a node's to_string is a pure function of the node and the
depth - the rendering members are const and consult no mutable state -
so the two calls coincide. -/
theorem to_string_idempotent :
    ∀ (n : Node) (d : Nat), n.to_string d = n.to_string d :=
  fun _ _ => rfl

/-- Claim C9: the Nop node renders to the empty string at every
indentation depth, reports static type VOID, and never carries an error
(the Action base default applies, Action.hpp line 17). -/
theorem nop_contract :
    (∀ d : Nat, Nop.to_string d = "") ∧ Nop.type = Ty.VOID ∧ Nop.error = false :=
  ⟨fun _ => rfl, rfl, rfl⟩

/-- Claim C10: the canonical-spelling lookups are defined exactly on the
listed keys - utils::to_string(Type) on INT, FLOAT and BOOL only, and
utils::to_string(Operator) on the thirteen comparison, boolean and
arithmetic operators only (it raises for UNARY_MINUS, ASSIGN, PAR, CAST
and TEST) - and Cast::op_string on a VOID- or ANY-typed cast raises
instead of producing text. -/
theorem string_tables_domain :
    (∀ t : Ty, (utils.to_string t).isSome = true
        ↔ (t = Ty.INT ∨ t = Ty.FLOAT ∨ t = Ty.BOOL)) ∧
    (∀ o : Operator, (utils.to_string_op o).isSome = false
        ↔ (o = Operator.UNARY_MINUS ∨ o = Operator.ASSIGN ∨ o = Operator.PAR
            ∨ o = Operator.CAST ∨ o = Operator.TEST)) ∧
    Cast.op_string Ty.VOID = none ∧ Cast.op_string Ty.ANY = none := by
  decide

/-- Claim C1, counterexample: an Operation whose accumulated type is ANY
receiving an additional child of the unequal type INT (a pair that is
neither equal nor the INT/FLOAT coercion pair) issues no
INCOMPATIBLE_OPERANDS diagnostic and does not set its failed flag - the
cascade-suppression branch of the compatibility check fires instead. -/
theorem operation_any_skips_check :
    (Operation.mkTyped Operator.PLUS Ty.ANY [intConst]).diags = [] ∧
      (Operation.mkTyped Operator.PLUS Ty.ANY [intConst]).fail = false :=
  ⟨rfl, rfl⟩

/-- Claim C1 (amended): during Operation construction over a so-far
error-free state with accumulated type T, an additional error-free child
of type S with T distinct from S is handled thus: for the pair
(INT, FLOAT) in either position the child is accepted, the
needs-coercion marker is set and no diagnostic is issued; for every
other pair of unequal types with T distinct from ANY, exactly one
INCOMPATIBLE_OPERANDS diagnostic is issued and the failed flag is set;
when T is ANY the compatibility check is suppressed entirely (no
diagnostic, no failure). -/
theorem operation_unequal_types_check (s : OperationState) (a : Node)
    (hf : s.fail = false) (ha : a.error = false) (hne : s.t ≠ a.type) :
    (((s.t = Ty.INT ∧ a.type = Ty.FLOAT) ∨ (s.t = Ty.FLOAT ∧ a.type = Ty.INT)) →
        (set_children_step s a).needs_coercion = true ∧
        (set_children_step s a).diags = s.diags ∧
        (set_children_step s a).fail = false) ∧
    ((¬ ((s.t = Ty.INT ∧ a.type = Ty.FLOAT) ∨ (s.t = Ty.FLOAT ∧ a.type = Ty.INT))) →
        s.t ≠ Ty.ANY →
        (set_children_step s a).diags
            = s.diags ++ [Diag.INCOMPATIBLE_OPERANDS s.op s.t a.type] ∧
        (set_children_step s a).fail = true) ∧
    (s.t = Ty.ANY →
        (set_children_step s a).diags = s.diags ∧
        (set_children_step s a).fail = false ∧
        (set_children_step s a).needs_coercion = s.needs_coercion) := by
  obtain ⟨o, t, f, nc, cs, ds⟩ := s
  obtain ⟨ta, ea, ra⟩ := a
  simp only at hf ha hne
  subst hf
  subst ha
  cases t <;> cases ta <;>
    simp_all [set_children_step, check, utils.can_coerce, utils.type_matches,
      beq_iff_eq]

/-- Claim C1 witness: a PLUS Operation accumulated at INT receiving a
FLOAT constant takes the coercion branch. -/
theorem operation_unequal_types_check_witness :
    (((opStart.t = Ty.INT ∧ floatConst.type = Ty.FLOAT)
        ∨ (opStart.t = Ty.FLOAT ∧ floatConst.type = Ty.INT)) →
        (set_children_step opStart floatConst).needs_coercion = true ∧
        (set_children_step opStart floatConst).diags = opStart.diags ∧
        (set_children_step opStart floatConst).fail = false) ∧
    ((¬ ((opStart.t = Ty.INT ∧ floatConst.type = Ty.FLOAT)
        ∨ (opStart.t = Ty.FLOAT ∧ floatConst.type = Ty.INT))) →
        opStart.t ≠ Ty.ANY →
        (set_children_step opStart floatConst).diags
            = opStart.diags
              ++ [Diag.INCOMPATIBLE_OPERANDS opStart.op opStart.t floatConst.type] ∧
        (set_children_step opStart floatConst).fail = true) ∧
    (opStart.t = Ty.ANY →
        (set_children_step opStart floatConst).diags = opStart.diags ∧
        (set_children_step opStart floatConst).fail = false ∧
        (set_children_step opStart floatConst).needs_coercion
            = opStart.needs_coercion) :=
  operation_unequal_types_check opStart floatConst rfl rfl (by decide)

/-- Claim C2: while Operation::set_children processes its children, if
the child now being handled reports an error, or some earlier child did,
then no compatibility check runs for that child - its diagnostics list,
coercion marker and accumulated type are untouched - the failed flag is
set, the child is still appended, and the finished node keeps the failed
flag and carries every child in order for rendering. -/
theorem operation_child_error_cascade (s : OperationState) (xs ys : List Node)
    (a : Node) (herr : a.error = true ∨ ∃ b ∈ xs, b.error = true) :
    (set_children_step (set_children s xs) a).diags = (set_children s xs).diags ∧
    (set_children_step (set_children s xs) a).needs_coercion
        = (set_children s xs).needs_coercion ∧
    (set_children_step (set_children s xs) a).t = (set_children s xs).t ∧
    (set_children_step (set_children s xs) a).fail = true ∧
    (set_children s (xs ++ a :: ys)).fail = true ∧
    (set_children s (xs ++ a :: ys)).children = s.children ++ (xs ++ a :: ys) := by
  have hstep : set_children_step (set_children s xs) a
      = ⟨(set_children s xs).op, (set_children s xs).t, true,
          (set_children s xs).needs_coercion,
          (set_children s xs).children ++ [a], (set_children s xs).diags⟩ := by
    rcases herr with he | ⟨b, hb, hbe⟩
    · exact step_err_true _ a he
    · exact step_fail_true _ a (set_children_fail_of_mem xs s b hb hbe)
  refine ⟨by rw [hstep], by rw [hstep], by rw [hstep], by rw [hstep], ?_,
    set_children_children _ s⟩
  rw [set_children_append, set_children_cons, hstep]
  exact set_children_fail_mono ys _ rfl

/-- Claim C2 witness: a PLUS Operation whose only child is an undeclared
variable skips the compatibility check, fails, and still appends the
child. -/
theorem operation_child_error_cascade_witness :
    (set_children_step (set_children opStart []) errX).diags
        = (set_children opStart []).diags ∧
    (set_children_step (set_children opStart []) errX).needs_coercion
        = (set_children opStart []).needs_coercion ∧
    (set_children_step (set_children opStart []) errX).t
        = (set_children opStart []).t ∧
    (set_children_step (set_children opStart []) errX).fail = true ∧
    (set_children opStart ([] ++ errX :: [])).fail = true ∧
    (set_children opStart ([] ++ errX :: [])).children
        = opStart.children ++ ([] ++ errX :: []) :=
  operation_child_error_cascade opStart [] [] errX (Or.inl rfl)

theorem digitChar_ne_nl (m : Nat) : Nat.digitChar m ≠ '\n' := by
  rcases Nat.lt_or_ge m 16 with h | h
  · interval_cases m <;> decide
  · have h0 : ¬ m = 0 := by omega
    have h1 : ¬ m = 1 := by omega
    have h2 : ¬ m = 2 := by omega
    have h3 : ¬ m = 3 := by omega
    have h4 : ¬ m = 4 := by omega
    have h5 : ¬ m = 5 := by omega
    have h6 : ¬ m = 6 := by omega
    have h7 : ¬ m = 7 := by omega
    have h8 : ¬ m = 8 := by omega
    have h9 : ¬ m = 9 := by omega
    have h10 : ¬ m = 10 := by omega
    have h11 : ¬ m = 11 := by omega
    have h12 : ¬ m = 12 := by omega
    have h13 : ¬ m = 13 := by omega
    have h14 : ¬ m = 14 := by omega
    have h15 : ¬ m = 15 := by omega
    simp only [Nat.digitChar, h0, h1, h2, h3, h4, h5, h6, h7, h8, h9, h10, h11,
      h12, h13, h14, h15, if_false]
    decide

theorem toDigitsCore_ne_nl : ∀ (fuel n : Nat) (acc : List Char),
    (∀ c ∈ acc, c ≠ '\n') → ∀ c ∈ Nat.toDigitsCore 10 fuel n acc, c ≠ '\n' := by
  intro fuel
  induction fuel with
  | zero => intro n acc hacc; simpa [Nat.toDigitsCore] using hacc
  | succ f ih =>
    intro n acc hacc c hc
    simp only [Nat.toDigitsCore] at hc
    split at hc
    · rcases List.mem_cons.mp hc with h | h
      · subst h; exact digitChar_ne_nl _
      · exact hacc _ h
    · refine ih _ _ ?_ c hc
      intro d hd
      rcases List.mem_cons.mp hd with h | h
      · subst h; exact digitChar_ne_nl _
      · exact hacc _ h

theorem noNL_repr (n : Nat) : noNL (Nat.repr n) := by
  intro c hc
  exact toDigitsCore_ne_nl (n + 1) n [] (by simp) c hc

theorem noNL_append (a b : String) (h1 : noNL a) (h2 : noNL b) :
    noNL (a ++ b) := by
  intro c hc
  rw [String.data_append] at hc
  rcases List.mem_append.mp hc with h | h
  · exact h1 c h
  · exact h2 c h

theorem noNL_error_head (line : Nat) :
    noNL (utils.error_head line "semantic") := by
  unfold utils.error_head
  exact noNL_append _ _
    (noNL_append _ _
      (noNL_append _ _
        (noNL_append _ _ (by decide) (noNL_repr line)) (by decide))
      (by decide))
    (by decide)

theorem head_merge (line : Nat) :
    utils.error_head line "semantic"
      = "[Line " ++ Nat.repr line ++ "] semantic error: " := by
  unfold utils.error_head
  apply String.ext
  simp only [String.data_append, List.append_assoc]
  congr 2

theorem printable_type_noNL (t : Ty) (s : String)
    (h : utils.to_printable_string t = some s) : noNL s := by
  cases t <;>
      simp [utils.to_printable_string, utils.printable_type_table] at h <;>
    (subst h; decide)

theorem printable_op_noNL (o : Operator) (s : String)
    (h : utils.to_printable_string_op o = some s) : noNL s := by
  cases o <;>
      simp [utils.to_printable_string_op, utils.printable_operator_table] at h <;>
    (subst h; decide)

theorem head_line_shift (line : Nat) (x y : String)
    (h : x = utils.error_head line "semantic" ++ y) :
    x = "[Line " ++ Nat.repr line ++ "] semantic error: " ++ y := by
  rw [h, head_merge]

/-- Claim C7: every semantic diagnostic the reporter actually emits, for
every ErrorKind and argument list, is a single line of the form
"[Line n] semantic error: message", where n is the line-counter value at
the moment of emission; single-line holds given that the identifier
arguments themselves contain no newline. -/
theorem semantic_error_line_format :
    ∀ (line : Nat) (c : Diag) (s : String),
      utils.semantic_error line c = some s → c.argsOneLine →
      (∃ msg, s = "[Line " ++ Nat.repr line ++ "] semantic error: " ++ msg)
        ∧ noNL s := by
  intro line c s h hok
  cases c with
  | MULTIPLE_DEFINITION name =>
    simp only [utils.semantic_error, Option.some.injEq] at h
    subst h
    refine ⟨⟨"re-declaration of variable " ++ name, ?_⟩, ?_⟩
    · rw [head_merge]; simp only [String.append_assoc]
    · exact noNL_append _ _
        (noNL_append _ _ (noNL_error_head line) (by decide)) hok
  | MULTIPLE_DEFINITION_FN name =>
    simp only [utils.semantic_error, Option.some.injEq] at h
    subst h
    refine ⟨⟨"re-declaration of function " ++ name, ?_⟩, ?_⟩
    · rw [head_merge]; simp only [String.append_assoc]
    · exact noNL_append _ _
        (noNL_append _ _ (noNL_error_head line) (by decide)) hok
  | UNDECLARED_VARIABLE name =>
    simp only [utils.semantic_error, Option.some.injEq] at h
    subst h
    refine ⟨⟨"undeclared variable " ++ name, ?_⟩, ?_⟩
    · rw [head_merge]; simp only [String.append_assoc]
    · exact noNL_append _ _
        (noNL_append _ _ (noNL_error_head line) (by decide)) hok
  | INCOMPATIBLE_OPERANDS op e a =>
    simp only [utils.semantic_error] at h
    rcases hop : utils.to_printable_string_op op with _ | opn <;>
      rcases he : utils.to_printable_string e with _ | es <;>
        rcases ha2 : utils.to_printable_string a with _ | a2 <;>
          simp [utils.incompatible_operands_msg, hop, he, ha2] at h
    subst h
    refine ⟨⟨opn ++ (" operation expected " ++ (es ++ (" but received " ++ a2))),
      ?_⟩, ?_⟩
    · rw [head_merge]; simp only [String.append_assoc]
    · exact noNL_append _ _
        (noNL_append _ _
          (noNL_append _ _
            (noNL_append _ _
              (noNL_append _ _ (noNL_error_head line)
                (printable_op_noNL op opn hop))
              (by decide))
            (printable_type_noNL e es he))
          (by decide))
        (printable_type_noNL a a2 ha2)
  | INCOMPATIBLE_ASSIGNMENT e a =>
    simp only [utils.semantic_error] at h
    rcases hop : utils.to_printable_string_op Operator.ASSIGN with _ | opn <;>
      rcases he : utils.to_printable_string e with _ | es <;>
        rcases ha2 : utils.to_printable_string a with _ | a2 <;>
          simp [utils.incompatible_operands_msg, hop, he, ha2] at h
    subst h
    refine ⟨⟨opn ++ (" operation expected " ++ (es ++ (" but received " ++ a2))),
      ?_⟩, ?_⟩
    · rw [head_merge]; simp only [String.append_assoc]
    · exact noNL_append _ _
        (noNL_append _ _
          (noNL_append _ _
            (noNL_append _ _
              (noNL_append _ _ (noNL_error_head line)
                (printable_op_noNL Operator.ASSIGN opn hop))
              (by decide))
            (printable_type_noNL e es he))
          (by decide))
        (printable_type_noNL a a2 ha2)
  | INCOMPATIBLE_TEST r =>
    simp only [utils.semantic_error] at h
    rcases hop : utils.to_printable_string_op Operator.TEST with _ | opn <;>
      rcases he : utils.to_printable_string Ty.BOOL with _ | es <;>
        rcases ha2 : utils.to_printable_string r with _ | a2 <;>
          simp [utils.incompatible_operands_msg, hop, he, ha2] at h
    subst h
    refine ⟨⟨opn ++ (" operation expected " ++ (es ++ (" but received " ++ a2))),
      ?_⟩, ?_⟩
    · rw [head_merge]; simp only [String.append_assoc]
    · exact noNL_append _ _
        (noNL_append _ _
          (noNL_append _ _
            (noNL_append _ _
              (noNL_append _ _ (noNL_error_head line)
                (printable_op_noNL Operator.TEST opn hop))
              (by decide))
            (printable_type_noNL Ty.BOOL es he))
          (by decide))
        (printable_type_noNL r a2 ha2)
  | DECLARED_BUT_NEVER_DEFINED name =>
    simp only [utils.semantic_error, Option.some.injEq] at h
    subst h
    refine ⟨⟨"function " ++ (name ++ " is declared but never defined"), ?_⟩, ?_⟩
    · rw [head_merge]; simp only [String.append_assoc]
    · exact noNL_append _ _
        (noNL_append _ _
          (noNL_append _ _ (noNL_error_head line) (by decide)) hok)
        (by decide)
  | WRONG_PARAM_COUNT name e a =>
    simp only [utils.semantic_error, Option.some.injEq] at h
    subst h
    refine ⟨⟨"function " ++ (name ++ (" expects " ++ (Nat.repr e
      ++ (" parameters but received " ++ Nat.repr a)))), ?_⟩, ?_⟩
    · rw [head_merge]; simp only [String.append_assoc]
    · exact noNL_append _ _
        (noNL_append _ _
          (noNL_append _ _
            (noNL_append _ _
              (noNL_append _ _
                (noNL_append _ _ (noNL_error_head line) (by decide)) hok)
              (by decide))
            (noNL_repr e))
          (by decide))
        (noNL_repr a)
  | INCOMPATIBLE_PARAM name e a =>
    simp only [utils.semantic_error] at h
    rcases he : utils.to_printable_string e with _ | es <;>
      rcases ha2 : utils.to_printable_string a with _ | a2 <;>
        simp [he, ha2] at h
    subst h
    refine ⟨⟨"parameter " ++ (name ++ (" expected " ++ (es
      ++ (" but received " ++ a2)))), ?_⟩, ?_⟩
    · rw [head_merge]; simp only [String.append_assoc]
    · exact noNL_append _ _
        (noNL_append _ _
          (noNL_append _ _
            (noNL_append _ _
              (noNL_append _ _
                (noNL_append _ _ (noNL_error_head line) (by decide)) hok)
              (by decide))
            (printable_type_noNL e es he))
          (by decide))
        (printable_type_noNL a a2 ha2)
  | INCOMPATIBLE_INDEX e a =>
    simp only [utils.semantic_error] at h
    rcases he : utils.to_printable_string e with _ | es <;>
      rcases ha2 : utils.to_printable_string a with _ | a2 <;>
        simp [he, ha2] at h
    subst h
    refine ⟨⟨"index operator expects " ++ (es ++ (" but received " ++ a2)),
      ?_⟩, ?_⟩
    · rw [head_merge]; simp only [String.append_assoc]
    · exact noNL_append _ _
        (noNL_append _ _
          (noNL_append _ _
            (noNL_append _ _ (noNL_error_head line) (by decide))
            (printable_type_noNL e es he))
          (by decide))
        (printable_type_noNL a a2 ha2)
  | NON_ARRAY_INDEX =>
    simp only [utils.semantic_error, Option.some.injEq] at h
    subst h
    refine ⟨⟨"index operator expects an array", ?_⟩, ?_⟩
    · rw [head_merge]
    · exact noNL_append _ _ (noNL_error_head line) (by decide)

/-- Claim C7 witness: the UNDECLARED_VARIABLE diagnostic for identifier
x at line 3 carries the expected prefix and is a single line. -/
theorem semantic_error_line_format_witness :
    (∃ msg, "[Line 3] semantic error: undeclared variable x"
        = "[Line " ++ Nat.repr 3 ++ "] semantic error: " ++ msg)
      ∧ noNL "[Line 3] semantic error: undeclared variable x" :=
  semantic_error_line_format 3 (Diag.UNDECLARED_VARIABLE "x")
    "[Line 3] semantic error: undeclared variable x" (by decide)
    (by simp only [Diag.argsOneLine]; decide)
